import Mathlib

/-!
Shallow embedding of `src/packages/microservices/client/client-redis.ts`
(`ClientRedis`, the Redis client proxy of the microservices package) and
the pieces of its base class `ClientProxy` that it uses.

External collaborators (the serializer, the deserializer, `JSON.parse`,
`JSON.stringify`, `normalizePattern` and the fresh correlation id drawn by
`assignPacketId`) are supplied through explicit environment records, since
their concrete behaviour is not part of this file's source; the control
flow of `ClientRedis` itself is translated line by line.
-/

namespace ClientRedis

/-- An error value (JS `Error` / arbitrary thrown value), kept abstract. -/
abbrev Err := String

/-- A response payload value, kept abstract. -/
abbrev Resp := String

/-- A logical outbound call description: `{ pattern, data }`. -/
structure ReadPacket where
  pattern : String
  data : String
deriving DecidableEq

/-- Outbound wire form: `{ id?, pattern, data }`; `id` is present for
requests (after `assignPacketId`) and absent for events. -/
structure WritePacket where
  id : Option String
  pattern : String
  data : String
deriving DecidableEq

/-- Inbound wire form after deserialization:
`{ id, err?, response?, isDisposed? }`. `err = none` models a missing or
falsy `err`; `isDisposed` is the JS truthiness of the field. -/
structure WriteResponse where
  id : String
  err : Option Err
  response : Option Resp
  isDisposed : Bool
deriving DecidableEq

/-- The argument object passed to a pending-response callback.
`isDisposed = some true` models the object literal carrying an
`isDisposed: true` field; `none` models the field being absent. -/
structure WriteResult where
  err : Option Err
  response : Option Resp
  isDisposed : Option Bool
deriving DecidableEq

/-- Callbacks are identified abstractly; the routing map stores which
callback is registered, and effects record which one is invoked. -/
abbrev CallbackId := Nat

/-- The Routing Table: `routingMap`, a map from correlation id to the
pending callback (JS `Map<string, Function>`). -/
abbrev RoutingMap := List (String × CallbackId)

/-- `routingMap.set(id, cb)`: replaces any previous binding of `id`. -/
def routingSet (m : RoutingMap) (id : String) (cb : CallbackId) : RoutingMap :=
  (id, cb) :: m.filter (fun p => p.1 ≠ id)

/-- `routingMap.get(id)`. -/
def routingGet (m : RoutingMap) (id : String) : Option CallbackId :=
  match m with
  | [] => none
  | (k, v) :: rest => if k = id then some v else routingGet rest id

/-- `routingMap.delete(id)`. -/
def routingDelete (m : RoutingMap) (id : String) : RoutingMap :=
  m.filter (fun p => p.1 ≠ id)

/-- Transport handles are identified abstractly (a handle id); `none`
models a `null` / not-yet-assigned `pubClient` / `subClient` field. -/
abbrev Handle := Nat

/-- The mutable fields of a `ClientRedis` instance. -/
structure ClientState where
  routingMap : RoutingMap
  pubClient : Option Handle
  subClient : Option Handle
  connection : Option Nat
  isExplicitlyTerminated : Bool
deriving DecidableEq

/-- The constructor-fixed configuration read through `getOptionsProp`:
`retryAttempts` and `retryDelay`, each possibly absent. -/
structure ClientConfig where
  retryAttempts : Option Nat
  retryDelay : Option Nat
deriving DecidableEq

/-- JS truthiness of an optional number: `undefined` and `0` are falsy. -/
def truthyNat : Option Nat → Bool
  | none => false
  | some n => n ≠ 0

/-- `ECONNREFUSED` from `./constants` (the connection-refused error code
matched by the retry strategy). -/
def ECONNREFUSED : String := "ECONNREFUSED"

/-- `getAckPatternName(pattern)`: the ack channel name. -/
def getAckPatternName (pattern : String) : String :=
  pattern ++ "_ack"

/-- `getResPatternName(pattern)`: the response channel name. -/
def getResPatternName (pattern : String) : String :=
  pattern ++ "_res"

/-- `close()`: quit both handles if present, null both references, set the
termination flag. The returned list records which handles were quit. -/
def close (s : ClientState) : ClientState × List Handle :=
  ({ s with
      pubClient := none
      subClient := none
      isExplicitlyTerminated := true },
   (s.pubClient.toList) ++ (s.subClient.toList))

/-- The error value carried by `RetryStrategyOptions.error`, with its
`code` property. -/
structure RetryErr where
  code : String
  message : String
deriving DecidableEq

/-- `RetryStrategyOptions`: the attempt count and optional last error
handed to `retry_strategy` by the transport. -/
structure RetryStrategyOptions where
  attempt : Nat
  error : Option RetryErr
deriving DecidableEq

/-- The value returned by `createRetryStrategy`:
`undefined | number | Error`. -/
inductive RetryResult where
  | undef : RetryResult
  | delay : Nat → RetryResult
  | exhausted : String → RetryResult
deriving DecidableEq

/-- `createRetryStrategy(options, error$)`, translated clause by clause.
The first component records what was emitted onto the shared error
subject `error$` during this invocation; the second is the return value. -/
def createRetryStrategy (cfg : ClientConfig) (s : ClientState)
    (options : RetryStrategyOptions) : List RetryErr × RetryResult :=
  let emitted : List RetryErr :=
    match options.error with
    | some e => if e.code = ECONNREFUSED then [e] else []
    | none => []
  let ret : RetryResult :=
    if s.isExplicitlyTerminated then
      .undef
    else if ¬ truthyNat cfg.retryAttempts
        ∨ options.attempt > cfg.retryAttempts.getD 0 then
      .exhausted "Retry time exhausted"
    else
      .delay (cfg.retryDelay.getD 0)
  (emitted, ret)

/-- Environment of external collaborators used by the message-event
handler: `JSON.parse` (which raises on input that is not valid JSON,
modelled by `Except.error`) and the pure deserializer
(`deserialize(packet) -> {id, err, response, isDisposed}`). The parsed
document is kept abstract as a string. -/
structure RouterEnv where
  parse : String → Except Err String
  deserialize : String → WriteResponse

/-- What the message-event handler did: dropped the buffer, or invoked
exactly one registered callback with one result object. -/
inductive RouterEffect where
  | drop : RouterEffect
  | invoke : CallbackId → WriteResult → RouterEffect
deriving DecidableEq

/-- `createResponseCallback()`: the handler installed on the sub client's
message event. `Except.error` models an exception escaping the handler
(there is no try/catch in it: `JSON.parse` failures propagate). -/
def createResponseCallback (env : RouterEnv) (m : RoutingMap)
    (buffer : String) : Except Err RouterEffect := do
  let packet ← env.parse buffer
  let wr := env.deserialize packet
  match routingGet m wr.id with
  | none => return .drop
  | some callback =>
    if wr.isDisposed ∨ wr.err.isSome then
      return .invoke callback ⟨wr.err, wr.response, some true⟩
    else
      return .invoke callback ⟨wr.err, wr.response, none⟩

/-- A network action performed against the transport handles. -/
inductive NetAction where
  | subscribe : String → NetAction
  | publishMsg : String → String → NetAction
  | unsubscribe : String → NetAction
deriving DecidableEq

/-- Environment of external collaborators used by `publish` and
`dispatchEvent`: the fresh correlation id drawn inside `assignPacketId`,
`normalizePattern` (a pure string transform from `ClientProxy`), the
serializer (whose exceptions propagate, hence `Except`), and
`JSON.stringify` on the serialized packet (pure). -/
structure SendEnv where
  freshId : String
  normalize : String → String
  serialize : WritePacket → Except Err String
  stringify : String → String

/-- `assignPacketId(packet)`: merge a fresh correlation id into the
packet. -/
def assignPacketId (freshId : String) (packet : ReadPacket) : WritePacket :=
  ⟨some freshId, packet.pattern, packet.data⟩

/-- The body of the subscribe-acknowledgment callback passed to
`subClient.subscribe`: on an ack error it returns without doing anything;
otherwise it publishes the serialized packet to the ack channel. -/
def subscribeAckHandler (ackChannel payload : String)
    (ackErr : Option Err) : List NetAction :=
  match ackErr with
  | some _ => []
  | none => [.publishMsg ackChannel payload]

/-- The teardown closure returned by `publish`: it captures the response
channel and the packet id. -/
structure Teardown where
  responseChannel : String
  packetId : String
deriving DecidableEq

/-- The complete observable outcome of one `publish` call, given the
outcome `ackErr` of the subscribe acknowledgment: the updated state, the
trace of network actions in order (the subscribe, then whatever the ack
handler did), the synchronous callback invocation of the catch path, and
the returned teardown closure (`none` models returning `undefined`). -/
structure PublishOutcome where
  state : ClientState
  actions : List NetAction
  syncCallback : Option WriteResult
  teardown : Option Teardown
deriving DecidableEq

/-- `publish(partialPacket, callback)`, the request/response send path,
translated from the source's try/catch. `ackErr` is the error (if any)
later handed to the subscribe-acknowledgment callback; the action trace
lists the subscribe followed by the ack handler's actions, reflecting
that the ack handler runs strictly after the subscribe was issued. -/
def publish (env : SendEnv) (s : ClientState) (partialPacket : ReadPacket)
    (callback : CallbackId) (ackErr : Option Err) : PublishOutcome :=
  let packet := assignPacketId env.freshId partialPacket
  let pattern := env.normalize partialPacket.pattern
  match env.serialize packet with
  | .error err =>
    { state := s, actions := [], syncCallback := some ⟨some err, none, none⟩,
      teardown := none }
  | .ok serializedPacket =>
    let responseChannel := getResPatternName pattern
    let s' := { s with routingMap := routingSet s.routingMap env.freshId callback }
    { state := s'
      actions := .subscribe responseChannel ::
        subscribeAckHandler (getAckPatternName pattern)
          (env.stringify serializedPacket) ackErr
      syncCallback := none
      teardown := some ⟨responseChannel, env.freshId⟩ }

/-- Running the teardown closure returned by `publish`: unsubscribe the
response channel and delete the routing entry. -/
def runTeardown (s : ClientState) (t : Teardown) :
    ClientState × List NetAction :=
  ({ s with routingMap := routingDelete s.routingMap t.packetId },
   [.unsubscribe t.responseChannel])

/-- The settled value of the promise returned by `dispatchEvent`. -/
inductive EmitOutcome where
  | resolved : EmitOutcome
  | rejected : Err → EmitOutcome
deriving DecidableEq

/-- `dispatchEvent(packet)`, the fire-and-forget emit path. It has no
try/catch, so a serializer exception propagates (`Except.error`). On
success it publishes on the normalized pattern itself and returns a
promise settled by the publish acknowledgment `ackErr`; the state is
returned unchanged (no routing entry is touched). -/
def dispatchEvent (env : SendEnv) (s : ClientState) (packet : ReadPacket)
    (ackErr : Option Err) :
    Except Err (ClientState × List NetAction × EmitOutcome) :=
  let pattern := env.normalize packet.pattern
  match env.serialize ⟨none, packet.pattern, packet.data⟩ with
  | .error err => .error err
  | .ok serializedPacket =>
    .ok (s,
      [.publishMsg pattern (env.stringify serializedPacket)],
      match ackErr with
      | some err => .rejected err
      | none => .resolved)

/-- An event observed while `connect`'s pipeline
`merge(error$, zip(pubConnect$, subConnect$)).pipe(take(1))` is live:
a connect event on the pub handle, a connect event on the sub handle, or
an error pushed onto the shared `error$` subject. -/
inductive ConnEvent where
  | pubConnect : ConnEvent
  | subConnect : ConnEvent
  | errEvent : Err → ConnEvent
deriving DecidableEq

/-- How the memoized connection promise settles. -/
inductive ConnOutcome where
  | ready : ConnOutcome
  | errored : Err → ConnOutcome
deriving DecidableEq

/-- The settling of `merge(error$, zip(pubConnect$, subConnect$))` under
`take(1)`, scanning the event sequence: the promise errors at the first
`error$` emission, and resolves at the first point where both handles
have emitted their connect event (the first `zip` output). `none` means
the promise is still pending after the given events. -/
def settleConnection (pubSeen subSeen : Bool) :
    List ConnEvent → Option ConnOutcome
  | [] => none
  | e :: rest =>
    match e with
    | .errEvent err => some (.errored err)
    | .pubConnect =>
      if subSeen then some .ready else settleConnection true subSeen rest
    | .subConnect =>
      if pubSeen then some .ready else settleConnection pubSeen true rest

/-- What one call to `connect()` did: returned the memoized connection
promise without touching anything, or created the two handles and a new
connection promise. -/
inductive ConnectEffect where
  | memoized : Option Nat → ConnectEffect
  | fresh : Handle → Handle → Nat → ConnectEffect
deriving DecidableEq

/-- `connect()`: if both handles already exist, return `this.connection`
unchanged; otherwise assign a new pub handle and a new sub handle and a
new connection promise (identified by `freshConn`, settling per
`settleConnection`). `freshPub`/`freshSub` are the handles
`createClient` would return. -/
def connect (s : ClientState) (freshPub freshSub : Handle)
    (freshConn : Nat) : ClientState × ConnectEffect :=
  if s.pubClient.isSome ∧ s.subClient.isSome then
    (s, .memoized s.connection)
  else
    ({ s with
        pubClient := some freshPub
        subClient := some freshSub
        connection := some freshConn },
     .fresh freshPub freshSub freshConn)

/-- One observable state transition of a `ClientRedis` instance, covering
every operation of the embedding that writes the state. -/
inductive ClientStep : ClientState → ClientState → Prop where
  | closeStep (s : ClientState) : ClientStep s (close s).1
  | connectStep (s : ClientState) (p q : Handle) (c : Nat) :
      ClientStep s (connect s p q c).1
  | publishStep (env : SendEnv) (s : ClientState) (pkt : ReadPacket)
      (cb : CallbackId) (ackErr : Option Err) :
      ClientStep s (publish env s pkt cb ackErr).state
  | teardownStep (s : ClientState) (t : Teardown) :
      ClientStep s (runTeardown s t).1

/-- Reachability through any number of client operations. -/
abbrev ClientReaches : ClientState → ClientState → Prop :=
  Relation.ReflTransGen ClientStep

/-- A freshly constructed client: empty routing map, no handles, no
memoized connection, not terminated. -/
def initialState : ClientState := ⟨[], none, none, none, false⟩

/-! ## Helper lemmas (shared) -/

/-- Deleting an id from the routing map makes lookups of that id miss. -/
theorem routingGet_routingDelete_self (m : RoutingMap) (id : String) :
    routingGet (routingDelete m id) id = none := by
  induction m with
  | nil => rfl
  | cons hd tl ih =>
    by_cases h : hd.1 = id
    · simpa [routingDelete, h] using ih
    · simpa [routingDelete, routingGet, h] using ih

/-- No client operation resets the termination flag once set. -/
theorem ClientStep.preserves_terminated {s s' : ClientState}
    (h : ClientStep s s') (ht : s.isExplicitlyTerminated = true) :
    s'.isExplicitlyTerminated = true := by
  cases h with
  | closeStep s => simp [close]
  | connectStep s p q c =>
    unfold connect
    split <;> simp [ht]
  | publishStep env s pkt cb ackErr =>
    unfold publish
    rcases hser : env.serialize (assignPacketId env.freshId pkt) with e | sp <;>
      simp [hser, ht]
  | teardownStep s t => simpa [runTeardown] using ht

/-- Whether a computation modelled in `Except` completed without raising
an exception. -/
def completedWithoutRaising : Except Err RouterEffect → Bool
  | .ok _ => true
  | .error _ => false

/-- A sample router environment: parsing succeeds and yields the buffer
itself, and the deserializer reads the document as a bare terminal id. -/
def sampleRouterEnv : RouterEnv where
  parse := fun b => .ok b
  deserialize := fun p => ⟨p, none, none, true⟩

/-- A router environment whose parse raises on every buffer, modelling a
buffer that is not valid JSON (`JSON.parse` throws a `SyntaxError`). -/
def invalidJsonEnv : RouterEnv where
  parse := fun _ => .error "SyntaxError: Unexpected token"
  deserialize := fun p => ⟨p, none, none, false⟩

/-- A sample send environment: identity normalizer, a serializer that
renders the packet as `pattern:data` and never throws, and identity
stringify. -/
def okSendEnv : SendEnv where
  freshId := "id1"
  normalize := fun p => p
  serialize := fun w => .ok (w.pattern ++ ":" ++ w.data)
  stringify := fun x => x

/-- A send environment whose serializer throws on every packet. -/
def throwingSendEnv : SendEnv where
  freshId := "id1"
  normalize := fun p => p
  serialize := fun _ => .error "serialize failure"
  stringify := fun x => x

/-- Setting an id makes lookups of that id return the new callback. -/
theorem routingGet_routingSet_self (m : RoutingMap) (id : String)
    (cb : CallbackId) : routingGet (routingSet m id cb) id = some cb := by
  simp [routingSet, routingGet]

/-- Appending the ack suffix always changes the string. -/
theorem getAckPatternName_ne (p : String) : getAckPatternName p ≠ p := by
  intro h
  have := congrArg String.length h
  simp [getAckPatternName, String.length_append] at this
  exact absurd this (by decide)

/-- Appending the response suffix always changes the string. -/
theorem getResPatternName_ne (p : String) : getResPatternName p ≠ p := by
  intro h
  have := congrArg String.length h
  simp [getResPatternName, String.length_append] at this
  exact absurd this (by decide)

/-- A client whose two handles exist and whose connection promise is
memoized. -/
def connectedState : ClientState := ⟨[], some 1, some 2, some 0, false⟩

/-- If the connect pipeline settles at all, either both handles had
emitted their connect events, or an error was observed on the shared
subject. -/
theorem settleConnection_settles (evts : List ConnEvent) :
    ∀ (pubSeen subSeen : Bool) (out : ConnOutcome),
      settleConnection pubSeen subSeen evts = some out →
      ((pubSeen = true ∨ ConnEvent.pubConnect ∈ evts) ∧
       (subSeen = true ∨ ConnEvent.subConnect ∈ evts)) ∨
      (∃ e, out = .errored e ∧ ConnEvent.errEvent e ∈ evts) := by
  induction evts with
  | nil =>
    intro pubSeen subSeen out h
    simp [settleConnection] at h
  | cons ev rest ih =>
    intro pubSeen subSeen out h
    cases ev with
    | errEvent err =>
      simp [settleConnection] at h
      exact Or.inr ⟨err, h.symm, by simp⟩
    | pubConnect =>
      cases subSeen with
      | true => exact Or.inl ⟨Or.inr (by simp), Or.inl rfl⟩
      | false =>
        simp only [settleConnection, Bool.false_eq_true, if_false] at h
        rcases ih true false out h with ⟨h1, h2⟩ | ⟨e, he, hm⟩
        · exact Or.inl ⟨Or.inr (by simp),
            h2.imp id (fun hmem => by simp [hmem])⟩
        · exact Or.inr ⟨e, he, by simp [hm]⟩
    | subConnect =>
      cases pubSeen with
      | true => exact Or.inl ⟨Or.inl rfl, Or.inr (by simp)⟩
      | false =>
        simp only [settleConnection, Bool.false_eq_true, if_false] at h
        rcases ih false true out h with ⟨h1, h2⟩ | ⟨e, he, hm⟩
        · exact Or.inl ⟨h1.imp id (fun hmem => by simp [hmem]),
            Or.inr (by simp)⟩
        · exact Or.inr ⟨e, he, by simp [hm]⟩

/-! ## Claim theorems -/

/-- C3: `createRetryStrategy` evaluates its decision table in order: a
connection-refused last error is emitted (exactly once) onto the shared
error subject regardless of the other branches; termination returns
`undefined`; an unconfigured (falsy) `retryAttempts` or an attempt number
above it returns the exhaustion `Error`; otherwise the configured
`retryDelay` (default `0`) is returned. The last two conjuncts are the
claim's concrete scenarios. -/
theorem createRetryStrategy_table (cfg : ClientConfig) (s : ClientState)
    (o : RetryStrategyOptions) :
    (∀ e, o.error = some e → e.code = ECONNREFUSED →
        (createRetryStrategy cfg s o).1 = [e]) ∧
    (∀ e, o.error = some e → e.code ≠ ECONNREFUSED →
        (createRetryStrategy cfg s o).1 = []) ∧
    (o.error = none → (createRetryStrategy cfg s o).1 = []) ∧
    (s.isExplicitlyTerminated = true →
        (createRetryStrategy cfg s o).2 = .undef) ∧
    (s.isExplicitlyTerminated = false →
        (¬ truthyNat cfg.retryAttempts ∨
          o.attempt > cfg.retryAttempts.getD 0) →
        (createRetryStrategy cfg s o).2 = .exhausted "Retry time exhausted") ∧
    (s.isExplicitlyTerminated = false → truthyNat cfg.retryAttempts →
        o.attempt ≤ cfg.retryAttempts.getD 0 →
        (createRetryStrategy cfg s o).2 = .delay (cfg.retryDelay.getD 0)) ∧
    (createRetryStrategy ⟨some 3, some 50⟩ initialState ⟨1, none⟩).2 =
        .delay 50 ∧
    (createRetryStrategy ⟨some 3, some 50⟩ initialState ⟨4, none⟩).2 =
        .exhausted "Retry time exhausted" := by
  refine ⟨?_, ?_, ?_, ?_, ?_, ?_, by decide, by decide⟩
  · intro e he hc
    simp [createRetryStrategy, he, hc]
  · intro e he hc
    simp [createRetryStrategy, he, hc]
  · intro he
    simp [createRetryStrategy, he]
  · intro ht
    simp [createRetryStrategy, ht]
  · intro ht hcond
    rcases hcond with hfalse | hgt
    · simp only [createRetryStrategy, ht]
      simp [hfalse]
    · simp only [createRetryStrategy, ht]
      by_cases hb : truthyNat cfg.retryAttempts <;> simp [hb, hgt]
  · intro ht hb hle
    simp [createRetryStrategy, ht, hb, Nat.not_lt.mpr hle]

/-- Witness for C3: a non-terminated client with `retryAttempts = 3`,
`retryDelay = 50` at attempt 1 gets delay 50. -/
theorem createRetryStrategy_table_witness :
    (createRetryStrategy ⟨some 3, some 50⟩ initialState ⟨1, none⟩).2 =
      .delay 50 := by
  have h := createRetryStrategy_table ⟨some 3, some 50⟩ initialState ⟨1, none⟩
  exact h.2.2.2.2.2.1 rfl (by decide) (by decide)

/-- C10: after `close()` the termination flag is `true`, stays `true`
through any sequence of further client operations, and the retry
strategy then returns `undefined` on its first invocation regardless of
the attempt count or the configured `retryAttempts`. -/
theorem closed_client_never_retries (cfg : ClientConfig) (s s' : ClientState)
    (h : ClientReaches (close s).1 s') (o : RetryStrategyOptions) :
    s'.isExplicitlyTerminated = true ∧
      (createRetryStrategy cfg s' o).2 = .undef := by
  have hterm : s'.isExplicitlyTerminated = true := by
    induction h with
    | refl => simp [close]
    | tail _ hstep ih => exact hstep.preserves_terminated ih
  exact ⟨hterm, by simp [createRetryStrategy, hterm]⟩

/-- Witness for C10: a freshly constructed then closed client, zero
further operations, arbitrary concrete retry options. -/
theorem closed_client_never_retries_witness :
    (createRetryStrategy ⟨some 3, some 50⟩ (close initialState).1
        ⟨1, none⟩).2 = .undef :=
  (closed_client_never_retries ⟨some 3, some 50⟩ initialState
    (close initialState).1 Relation.ReflTransGen.refl ⟨1, none⟩).2

/-- C2: on a buffer that deserializes to `wr`, the Response Router drops
silently when no callback is registered under `wr.id`; otherwise it
invokes the registered callback exactly once — with
`{err, response, isDisposed: true}` when `isDisposed` is truthy or an
error is present, and with `{err, response}` (no `isDisposed` field)
otherwise. `RouterEffect` records the single invocation performed. -/
theorem createResponseCallback_routes (env : RouterEnv) (m : RoutingMap)
    (buffer p : String) (wr : WriteResponse)
    (hp : env.parse buffer = .ok p) (hw : env.deserialize p = wr) :
    (routingGet m wr.id = none →
        createResponseCallback env m buffer = .ok .drop) ∧
    (∀ cb, routingGet m wr.id = some cb →
      ((wr.isDisposed = true ∨ wr.err.isSome = true) →
        createResponseCallback env m buffer =
          .ok (.invoke cb ⟨wr.err, wr.response, some true⟩)) ∧
      (wr.isDisposed = false → wr.err = none →
        createResponseCallback env m buffer =
          .ok (.invoke cb ⟨wr.err, wr.response, none⟩))) := by
  refine ⟨?_, ?_⟩
  · intro hnone
    simp [createResponseCallback, bind, Except.bind, pure, Except.pure, hp, hw, hnone]
  · intro cb hcb
    refine ⟨?_, ?_⟩
    · intro hterm
      have : (wr.isDisposed ∨ wr.err.isSome) := by
        rcases hterm with h | h
        · exact Or.inl h
        · exact Or.inr h
      simp [createResponseCallback, bind, Except.bind, pure, Except.pure, hp, hw, hcb, this]
    · intro hd he
      simp [createResponseCallback, bind, Except.bind, pure, Except.pure, hp, hw, hcb, hd, he]

/-- Witness for C2: a registered id `"id1"` whose response deserializes
with `isDisposed` truthy is delivered terminally to callback 7. -/
theorem createResponseCallback_routes_witness :
    createResponseCallback sampleRouterEnv [("id1", 7)] "id1" =
      .ok (.invoke 7 ⟨none, none, some true⟩) := by
  have h := createResponseCallback_routes sampleRouterEnv [("id1", 7)]
    "id1" "id1" ⟨"id1", none, none, true⟩ rfl rfl
  exact (h.2 7 (by decide)).1 (Or.inl rfl)

/-- C8 counterexample: on a buffer that is not valid JSON, `JSON.parse`
raises inside the message-event handler (which has no try/catch), so the
handler does not complete without raising — refuting the claim that no
failure path throws across the event-loop boundary. -/
theorem responseCallback_raises_on_invalid_json :
    completedWithoutRaising
      (createResponseCallback invalidJsonEnv [] "not json") = false := by
  decide

/-- C8 (amended): for every inbound buffer whose JSON parse succeeds, the
message-event handler completes without raising; every failure on such
buffers is reported as a value on a pending callback (or dropped),
never thrown. -/
theorem responseCallback_total_on_valid_json (env : RouterEnv)
    (m : RoutingMap) (buffer p : String) (hp : env.parse buffer = .ok p) :
    completedWithoutRaising (createResponseCallback env m buffer) = true := by
  rcases hlk : routingGet m (env.deserialize p).id with _ | cb
  · simp [createResponseCallback, bind, Except.bind, pure, Except.pure, hp, hlk, completedWithoutRaising]
  · by_cases hc : ((env.deserialize p).isDisposed ∨
      (env.deserialize p).err.isSome) <;>
      simp [createResponseCallback, bind, Except.bind, pure, Except.pure, hp, hlk, hc, completedWithoutRaising]

/-- Witness for C8's amended statement: a concrete valid-parse buffer. -/
theorem responseCallback_total_on_valid_json_witness :
    completedWithoutRaising
      (createResponseCallback sampleRouterEnv [] "abc") = true :=
  responseCallback_total_on_valid_json sampleRouterEnv [] "abc" "abc" rfl

/-- C1: when a send reaches the network (the packet serialized), the
first network action is the subscribe to the response channel; the
publish to the ack channel happens only inside the subscribe
acknowledgment callback and only when the acknowledgment carries no
error; on an ack error nothing is ever published and the Routing Table
entry for the call's id remains registered. -/
theorem publish_subscribe_before_ack_publish (env : SendEnv)
    (s : ClientState) (pkt : ReadPacket) (cb : CallbackId)
    (ackErr : Option Err) (sp : String)
    (hser : env.serialize (assignPacketId env.freshId pkt) = .ok sp) :
    ((publish env s pkt cb ackErr).actions.head? =
        some (.subscribe (getResPatternName (env.normalize pkt.pattern)))) ∧
    (ackErr = none →
      (publish env s pkt cb ackErr).actions =
        [.subscribe (getResPatternName (env.normalize pkt.pattern)),
         .publishMsg (getAckPatternName (env.normalize pkt.pattern))
           (env.stringify sp)]) ∧
    (∀ e, ackErr = some e →
      (publish env s pkt cb ackErr).actions =
        [.subscribe (getResPatternName (env.normalize pkt.pattern))] ∧
      routingGet (publish env s pkt cb ackErr).state.routingMap
        env.freshId = some cb) := by
  refine ⟨?_, ?_, ?_⟩
  · simp [publish, hser]
  · intro hnone
    simp [publish, hser, hnone, subscribeAckHandler]
  · intro e he
    exact ⟨by simp [publish, hser, he, subscribeAckHandler],
      by simp [publish, hser, routingGet_routingSet_self]⟩

/-- Witness for C1: a concrete send whose subscribe ack carries an
error — no publish happens and the routing entry stays registered. -/
theorem publish_subscribe_before_ack_publish_witness :
    (publish okSendEnv initialState ⟨"sum", "d"⟩ 5 (some "fail")).actions =
      [.subscribe "sum_res"] ∧
    routingGet (publish okSendEnv initialState ⟨"sum", "d"⟩ 5
      (some "fail")).state.routingMap "id1" = some 5 :=
  (publish_subscribe_before_ack_publish okSendEnv initialState
    ⟨"sum", "d"⟩ 5 (some "fail") "sum:d" rfl).2.2 "fail" rfl

/-- C4: after a successful `publish` stored the callback, running the
returned teardown unsubscribes the response channel and removes the id
from the Routing Table, so a later response carrying that id is dropped
by the Response Router without invoking anything. -/
theorem teardown_unregisters (env : SendEnv) (s : ClientState)
    (pkt : ReadPacket) (cb : CallbackId) (ackErr : Option Err)
    (sp : String) (t : Teardown)
    (hser : env.serialize (assignPacketId env.freshId pkt) = .ok sp)
    (ht : (publish env s pkt cb ackErr).teardown = some t) :
    (runTeardown (publish env s pkt cb ackErr).state t).2 =
      [.unsubscribe (getResPatternName (env.normalize pkt.pattern))] ∧
    routingGet
      (runTeardown (publish env s pkt cb ackErr).state t).1.routingMap
      env.freshId = none ∧
    (∀ (renv : RouterEnv) (buffer p : String),
      renv.parse buffer = .ok p →
      (renv.deserialize p).id = env.freshId →
      createResponseCallback renv
        (runTeardown (publish env s pkt cb ackErr).state t).1.routingMap
        buffer = .ok .drop) := by
  have htv : t = ⟨getResPatternName (env.normalize pkt.pattern),
      env.freshId⟩ := by
    simp [publish, hser] at ht
    exact ht.symm
  subst htv
  refine ⟨by simp [runTeardown], ?_, ?_⟩
  · simp [runTeardown, routingGet_routingDelete_self]
  · intro renv buffer p hp hid
    have hmiss : routingGet
        (runTeardown (publish env s pkt cb ackErr).state
          ⟨getResPatternName (env.normalize pkt.pattern),
            env.freshId⟩).1.routingMap (renv.deserialize p).id = none := by
      rw [hid]
      simp [runTeardown, routingGet_routingDelete_self]
    simp [createResponseCallback, bind, Except.bind, pure, Except.pure,
      hp, hmiss]

/-- Witness for C4: run a concrete send, tear it down, and deliver a
response with the same id — the router drops it. -/
theorem teardown_unregisters_witness :
    routingGet (runTeardown
        (publish okSendEnv initialState ⟨"sum", "d"⟩ 5 none).state
        ⟨"sum_res", "id1"⟩).1.routingMap "id1" = none ∧
    createResponseCallback ⟨fun b => .ok b, fun p => ⟨p, none, none, true⟩⟩
      (runTeardown (publish okSendEnv initialState ⟨"sum", "d"⟩ 5 none).state
        ⟨"sum_res", "id1"⟩).1.routingMap "id1" = .ok .drop := by
  have h := teardown_unregisters okSendEnv initialState ⟨"sum", "d"⟩ 5 none
    "sum:d" ⟨"sum_res", "id1"⟩ rfl rfl
  exact ⟨h.2.1, h.2.2 ⟨fun b => .ok b, fun p => ⟨p, none, none, true⟩⟩
    "id1" "id1" rfl rfl⟩

/-- C5: if serializing the packet inside `publish` throws, the per-call
callback is invoked synchronously with `{err}` and no network action
occurs (no subscribe, no publish). -/
theorem publish_serialize_throw_callback (env : SendEnv) (s : ClientState)
    (pkt : ReadPacket) (cb : CallbackId) (ackErr : Option Err) (e : Err)
    (hser : env.serialize (assignPacketId env.freshId pkt) = .error e) :
    (publish env s pkt cb ackErr).syncCallback = some ⟨some e, none, none⟩ ∧
    (publish env s pkt cb ackErr).actions = [] := by
  constructor <;> simp [publish, hser]

/-- Witness for C5: a concrete throwing serializer. -/
theorem publish_serialize_throw_callback_witness :
    (publish throwingSendEnv initialState ⟨"sum", "d"⟩ 5 none).syncCallback =
      some ⟨some "serialize failure", none, none⟩ ∧
    (publish throwingSendEnv initialState ⟨"sum", "d"⟩ 5 none).actions = [] :=
  publish_serialize_throw_callback throwingSendEnv initialState ⟨"sum", "d"⟩
    5 none "serialize failure" rfl

/-- C9: on the synchronous-error path of `publish` the caller receives no
teardown function (the source falls out of the try/catch returning
`undefined`), and the state is untouched, so no Routing Table entry was
created (the `set` happens only after serialization succeeds). -/
theorem publish_serialize_throw_no_teardown (env : SendEnv)
    (s : ClientState) (pkt : ReadPacket) (cb : CallbackId)
    (ackErr : Option Err) (e : Err)
    (hser : env.serialize (assignPacketId env.freshId pkt) = .error e) :
    (publish env s pkt cb ackErr).teardown = none ∧
    (publish env s pkt cb ackErr).state = s := by
  constructor <;> simp [publish, hser]

/-- Witness for C9: the same concrete throwing serializer. -/
theorem publish_serialize_throw_no_teardown_witness :
    (publish throwingSendEnv initialState ⟨"sum", "d"⟩ 5 none).teardown =
      none ∧
    (publish throwingSendEnv initialState ⟨"sum", "d"⟩ 5 none).state =
      initialState :=
  publish_serialize_throw_no_teardown throwingSendEnv initialState
    ⟨"sum", "d"⟩ 5 none "serialize failure" rfl

/-- C6: `connect()` is idempotent — when both handles exist it returns
the memoized connection promise with nothing created or changed;
otherwise it assigns exactly one new pub handle, one new sub handle and
a new connection promise, and that promise settles only after both
handles have signaled ready or an error is observed. -/
theorem connect_idempotent (s : ClientState) (p q : Handle) (c : Nat) :
    (s.pubClient.isSome = true → s.subClient.isSome = true →
      connect s p q c = (s, .memoized s.connection)) ∧
    (¬ (s.pubClient.isSome = true ∧ s.subClient.isSome = true) →
      (connect s p q c).1.pubClient = some p ∧
      (connect s p q c).1.subClient = some q ∧
      (connect s p q c).1.connection = some c ∧
      (connect s p q c).2 = .fresh p q c) ∧
    (∀ (evts : List ConnEvent) (out : ConnOutcome),
      settleConnection false false evts = some out →
      (ConnEvent.pubConnect ∈ evts ∧ ConnEvent.subConnect ∈ evts) ∨
      ∃ e, ConnEvent.errEvent e ∈ evts) := by
  refine ⟨?_, ?_, ?_⟩
  · intro hp hq
    simp [connect, hp, hq]
  · intro hnot
    simp [connect, hnot]
  · intro evts out h
    rcases settleConnection_settles evts false false out h with
      ⟨h1, h2⟩ | ⟨e, _, hm⟩
    · exact Or.inl ⟨h1.resolve_left (by simp), h2.resolve_left (by simp)⟩
    · exact Or.inr ⟨e, hm⟩

/-- Witness for C6: a connected client returns its memoized connection
promise unchanged. -/
theorem connect_idempotent_witness :
    connect connectedState 3 4 5 = (connectedState, .memoized (some 0)) :=
  (connect_idempotent connectedState 3 4 5).1 rfl rfl

/-- C7: `dispatchEvent` publishes the serialized packet on the channel
named by the normalized pattern itself (which never equals the `_ack` or
`_res` channel names), leaves the state untouched (no Routing Table
entry), serializes the packet with no correlation id (`id := none` in
the hypothesis), and returns a promise resolved on an error-free publish
acknowledgment and rejected with the supplied error otherwise. -/
theorem dispatchEvent_publishes_on_pattern (env : SendEnv)
    (s : ClientState) (pkt : ReadPacket) (ackErr : Option Err) (sp : String)
    (hser : env.serialize ⟨none, pkt.pattern, pkt.data⟩ = .ok sp) :
    (ackErr = none → dispatchEvent env s pkt ackErr =
      .ok (s, [.publishMsg (env.normalize pkt.pattern) (env.stringify sp)],
        .resolved)) ∧
    (∀ e, ackErr = some e → dispatchEvent env s pkt ackErr =
      .ok (s, [.publishMsg (env.normalize pkt.pattern) (env.stringify sp)],
        .rejected e)) ∧
    getAckPatternName (env.normalize pkt.pattern) ≠
      env.normalize pkt.pattern ∧
    getResPatternName (env.normalize pkt.pattern) ≠
      env.normalize pkt.pattern := by
  refine ⟨?_, ?_, getAckPatternName_ne _, getResPatternName_ne _⟩
  · intro h
    simp [dispatchEvent, hser, h]
  · intro e h
    simp [dispatchEvent, hser, h]

/-- Witness for C7: a concrete emit with an error-free acknowledgment. -/
theorem dispatchEvent_publishes_on_pattern_witness :
    dispatchEvent okSendEnv initialState ⟨"sum", "d"⟩ none =
      .ok (initialState, [.publishMsg "sum" "sum:d"], .resolved) :=
  (dispatchEvent_publishes_on_pattern okSendEnv initialState ⟨"sum", "d"⟩
    none "sum:d" rfl).1 rfl

end ClientRedis
